import Mathlib

/-!
Verification of the spacetime-visualizer relativity code.

This file gives a shallow embedding, over the real numbers, of the
calculation code in `src/physics.py` (class `RelativisticCalculator`),
the clock-widget velocity handler in `src/clock_visualization.py`
(class `TimeDilationClocks`), and the mass-input handling of
`src/ui.py` (class `SpaceTimeVisualizer`), followed by theorems that
settle the spec's testable properties against these definitions.

Python floats are modelled as real numbers; `numpy` elementary
functions (`sqrt`, `cos`, `sin`, `arctan2`) are modelled by their
exact real counterparts, with `arctan2` defined branch-for-branch
after numpy's convention.
-/

open Real

/-- Speed of light constant from `src/config.py` (`SPEED_OF_LIGHT = 299792458`). -/
def SPEED_OF_LIGHT : ℝ := 299792458

/-- numpy's `arctan2(y, x)`, branch for branch, over the reals
(signed zeros do not exist in ℝ, so the `x = 0` branches collapse). -/
noncomputable def arctan2 (y x : ℝ) : ℝ :=
  if 0 < x then Real.arctan (y / x)
  else if x < 0 then
    (if 0 ≤ y then Real.arctan (y / x) + Real.pi else Real.arctan (y / x) - Real.pi)
  else
    (if 0 < y then Real.pi / 2 else if y < 0 then -(Real.pi / 2) else 0)

namespace RelativisticCalculator

/-- `gamma` from `src/physics.py`: `1 / np.sqrt(1 - velocity_ratio**2)`. -/
noncomputable def gamma (v : ℝ) : ℝ := 1 / Real.sqrt (1 - v ^ 2)

/-- `time_dilation` from `src/physics.py`: `1 / gamma(velocity_ratio)`. -/
noncomputable def time_dilation (v : ℝ) : ℝ := 1 / gamma v

/-- The dictionary returned by `energy_calculations` in `src/physics.py`. -/
structure EnergyResult where
  rest_energy : ℝ
  total_energy : ℝ
  kinetic_energy : ℝ

/-- `energy_calculations` from `src/physics.py`:
`rest_energy = rest_mass * SPEED_OF_LIGHT**2`,
`total_energy = rest_energy * gamma_val`,
`kinetic_energy = rest_energy * (gamma_val - 1)`. -/
noncomputable def energy_calculations (rest_mass v : ℝ) : EnergyResult :=
  let gamma_val := gamma v
  let rest_energy := rest_mass * SPEED_OF_LIGHT ^ 2
  { rest_energy := rest_energy
    total_energy := rest_energy * gamma_val
    kinetic_energy := rest_energy * (gamma_val - 1) }

/-- `spacetime_components` from `src/physics.py`:
`(1 / gamma_val, velocity_ratio)`. -/
noncomputable def spacetime_components (v : ℝ) : ℝ × ℝ :=
  (1 / gamma v, v)

/-- `direction_angle` from `src/physics.py`:
`np.pi/2 - np.arctan2(space_component, time_component)`. -/
noncomputable def direction_angle (v : ℝ) : ℝ :=
  Real.pi / 2 - arctan2 (spacetime_components v).2 (spacetime_components v).1

/-- `create_arrow_coordinates` from `src/physics.py`, returning the
x-coordinate list and y-coordinate list of the five arrow points.
The Python defaults are `length=1.0, head_size=0.1`. -/
noncomputable def create_arrow_coordinates (angle length head_size : ℝ) :
    List ℝ × List ℝ :=
  let cos_a := Real.cos angle * length
  let sin_a := Real.sin angle * length
  let head_angle := 20 * Real.pi / 180
  let left_angle := angle + Real.pi - head_angle
  let right_angle := angle + Real.pi + head_angle
  let head_cos_l := cos_a + Real.cos left_angle * head_size
  let head_sin_l := sin_a + Real.sin left_angle * head_size
  let head_cos_r := cos_a + Real.cos right_angle * head_size
  let head_sin_r := sin_a + Real.sin right_angle * head_size
  ([0, cos_a, head_cos_l, cos_a, head_cos_r],
   [0, sin_a, head_sin_l, sin_a, head_sin_r])

/-- `mass_lbs_to_kg` from `src/physics.py`: `mass_lbs * 0.45359237`. -/
noncomputable def mass_lbs_to_kg (m : ℝ) : ℝ := m * 0.45359237

/-- `mass_kg_to_lbs` from `src/physics.py`: `mass_kg * 2.20462`. -/
noncomputable def mass_kg_to_lbs (m : ℝ) : ℝ := m * 2.20462

end RelativisticCalculator

namespace TimeDilationClocks

/-- The time-dilation factor computed independently by
`TimeDilationClocks.set_velocity` in `src/clock_visualization.py`:
`math.sqrt(1 - velocity_ratio**2)`. -/
noncomputable def set_velocity_factor (v : ℝ) : ℝ := Real.sqrt (1 - v ^ 2)

/-- The dilated elapsed time displayed by
`TimeDilationClocks.update_clocks` in `src/clock_visualization.py`:
`elapsed_time * time_dilation_factor`. -/
noncomputable def dilated_time (elapsed_time v : ℝ) : ℝ :=
  elapsed_time * set_velocity_factor v

end TimeDilationClocks

namespace SpaceTimeVisualizer

/-- `get_mass_kg` from `src/ui.py`. The result of Python's
`float(self.mass_input.text())` is modelled as an `Option ℝ`:
`some lbs` when the text parses as a float, `none` when it raises
`ValueError`, in which case the method returns the default `1.0`. -/
noncomputable def get_mass_kg (mass_text : Option ℝ) : ℝ :=
  match mass_text with
  | some lbs => RelativisticCalculator.mass_lbs_to_kg lbs
  | none => 1

/-- The energy bundle computed by a plot update (`update_plots` in
`src/ui.py` feeding `PlotManager.update_plots` in
`src/visualizations.py`): the slider value `0..999` becomes the
velocity `slider.value() / 1000`, and the mass fed to
`energy_calculations` is `get_mass_kg()`. -/
noncomputable def update_plots_energies (slider_value : ℕ) (mass_text : Option ℝ) :
    RelativisticCalculator.EnergyResult :=
  RelativisticCalculator.energy_calculations (get_mass_kg mass_text)
    ((slider_value : ℝ) / 1000)

end SpaceTimeVisualizer

namespace RelativisticCalculator

/-! ### Helper lemmas -/

/-- On `[0, 1)` the radicand `1 - v^2` is positive. -/
lemma one_sub_sq_pos {v : ℝ} (h0 : 0 ≤ v) (h1 : v < 1) : 0 < 1 - v ^ 2 := by
  nlinarith

/-- `1 / gamma v` collapses to the square root itself. -/
lemma one_div_gamma (v : ℝ) : 1 / gamma v = Real.sqrt (1 - v ^ 2) := by
  rw [gamma, one_div_one_div]

/-- The square root in `gamma` is positive on `[0, 1)`. -/
lemma sqrt_one_sub_sq_pos {v : ℝ} (h0 : 0 ≤ v) (h1 : v < 1) :
    0 < Real.sqrt (1 - v ^ 2) :=
  Real.sqrt_pos.mpr (one_sub_sq_pos h0 h1)

/-- The square root in `gamma` is at most one for `0 ≤ v`. -/
lemma sqrt_one_sub_sq_le_one {v : ℝ} (h0 : 0 ≤ v) :
    Real.sqrt (1 - v ^ 2) ≤ 1 := by
  refine Real.sqrt_le_one.mpr ?_
  nlinarith

end RelativisticCalculator

/-! ### Claim theorems -/

open RelativisticCalculator

/-- C1: for every velocity v in `[0, 0.999]`, `gamma v ≥ 1`; `gamma`
is strictly increasing on that interval; and `gamma 0 = 1`. -/
theorem gamma_ge_one_strict_increasing_and_one_at_zero :
    (∀ v : ℝ, 0 ≤ v → v ≤ 0.999 → 1 ≤ gamma v) ∧
    (∀ v₁ v₂ : ℝ, 0 ≤ v₁ → v₁ < v₂ → v₂ ≤ 0.999 → gamma v₁ < gamma v₂) ∧
    gamma 0 = 1 := by
  refine ⟨?_, ?_, ?_⟩
  · intro v h0 h1
    have hlt : v < 1 := lt_of_le_of_lt h1 (by norm_num)
    have hs := sqrt_one_sub_sq_pos h0 hlt
    rw [gamma, le_div_iff hs, one_mul]
    exact sqrt_one_sub_sq_le_one h0
  · intro v₁ v₂ h0 h12 h2
    have h2lt : v₂ < 1 := lt_of_le_of_lt h2 (by norm_num)
    have hpos2 : 0 < 1 - v₂ ^ 2 := one_sub_sq_pos (h0.trans h12.le) h2lt
    have hsq : 1 - v₂ ^ 2 < 1 - v₁ ^ 2 := by nlinarith
    have hlt : Real.sqrt (1 - v₂ ^ 2) < Real.sqrt (1 - v₁ ^ 2) :=
      Real.sqrt_lt_sqrt hpos2.le hsq
    have hs2 : 0 < Real.sqrt (1 - v₂ ^ 2) :=
      sqrt_one_sub_sq_pos (h0.trans h12.le) h2lt
    exact one_div_lt_one_div_of_lt hs2 hlt
  · rw [gamma]
    norm_num

/-- C1 witness: the theorem instantiated at concrete velocities. -/
theorem gamma_ge_one_strict_increasing_and_one_at_zero_witness :
    1 ≤ gamma (1/2) ∧ gamma (1/2) < gamma (3/5) ∧ gamma 0 = 1 :=
  ⟨gamma_ge_one_strict_increasing_and_one_at_zero.1 (1/2) (by norm_num) (by norm_num),
   gamma_ge_one_strict_increasing_and_one_at_zero.2.1 (1/2) (3/5)
     (by norm_num) (by norm_num) (by norm_num),
   gamma_ge_one_strict_increasing_and_one_at_zero.2.2⟩

/-- C2: for every rest mass m and velocity v in `[0, 1)`,
`energy_calculations m v` has `rest_energy = m * 299792458 ^ 2`
exactly, `total_energy = rest_energy * gamma v`, and
`kinetic_energy = total_energy - rest_energy`. -/
theorem energy_calculations_spec (m v : ℝ) (h0 : 0 ≤ v) (h1 : v < 1) :
    (energy_calculations m v).rest_energy = m * 299792458 ^ 2 ∧
    (energy_calculations m v).total_energy =
      (energy_calculations m v).rest_energy * gamma v ∧
    (energy_calculations m v).kinetic_energy =
      (energy_calculations m v).total_energy -
        (energy_calculations m v).rest_energy := by
  refine ⟨?_, rfl, ?_⟩
  · simp [energy_calculations, SPEED_OF_LIGHT]
  · simp only [energy_calculations]
    ring

/-- C2 witness: the theorem instantiated at mass 2 kg and v = 1/2. -/
theorem energy_calculations_spec_witness :
    (energy_calculations 2 (1/2)).rest_energy = 2 * 299792458 ^ 2 ∧
    (energy_calculations 2 (1/2)).total_energy =
      (energy_calculations 2 (1/2)).rest_energy * gamma (1/2) ∧
    (energy_calculations 2 (1/2)).kinetic_energy =
      (energy_calculations 2 (1/2)).total_energy -
        (energy_calculations 2 (1/2)).rest_energy :=
  energy_calculations_spec 2 (1/2) (by norm_num) (by norm_num)

/-- C3: for every velocity v in `[0, 1)`, `time_dilation v = 1 / gamma v`,
its value lies in `(0, 1]`, and `time_dilation 0 = 1`. -/
theorem time_dilation_spec (v : ℝ) (h0 : 0 ≤ v) (h1 : v < 1) :
    time_dilation v = 1 / gamma v ∧
    0 < time_dilation v ∧ time_dilation v ≤ 1 ∧
    time_dilation 0 = 1 := by
  have hval : time_dilation v = Real.sqrt (1 - v ^ 2) := by
    rw [time_dilation, one_div_gamma]
  refine ⟨rfl, ?_, ?_, ?_⟩
  · rw [hval]; exact sqrt_one_sub_sq_pos h0 h1
  · rw [hval]; exact sqrt_one_sub_sq_le_one h0
  · rw [time_dilation, one_div_gamma]
    norm_num

/-- C3 witness: the theorem instantiated at v = 3/5. -/
theorem time_dilation_spec_witness :
    time_dilation (3/5) = 1 / gamma (3/5) ∧
    0 < time_dilation (3/5) ∧ time_dilation (3/5) ≤ 1 ∧
    time_dilation 0 = 1 :=
  time_dilation_spec (3/5) (by norm_num) (by norm_num)

namespace RelativisticCalculator

/-- Value of `direction_angle` at rest: the arrow points straight up,
along the vertical time axis, at angle pi/2 from the horizontal. -/
lemma direction_angle_zero_val : direction_angle 0 = Real.pi / 2 := by
  simp only [direction_angle, spacetime_components]
  rw [one_div_gamma]
  have hs : (0:ℝ) < Real.sqrt (1 - 0 ^ 2) := by
    rw [show (1:ℝ) - 0 ^ 2 = 1 by norm_num, Real.sqrt_one]
    norm_num
  rw [arctan2, if_pos hs]
  rw [show (1:ℝ) - 0 ^ 2 = 1 by norm_num, Real.sqrt_one]
  norm_num

/-- Closed form of `direction_angle` on `(0, 1)`. -/
lemma direction_angle_eq_arctan {v : ℝ} (h0 : 0 < v) (h1 : v < 1) :
    direction_angle v = Real.arctan (Real.sqrt (1 - v ^ 2) / v) := by
  have hs : 0 < Real.sqrt (1 - v ^ 2) := sqrt_one_sub_sq_pos h0.le h1
  simp only [direction_angle, spacetime_components]
  rw [one_div_gamma, arctan2, if_pos hs]
  have hpos : 0 < v / Real.sqrt (1 - v ^ 2) := div_pos h0 hs
  have harc := Real.arctan_inv_of_pos hpos
  rw [← harc, inv_div]

end RelativisticCalculator

/-- C4 counterexample: `direction_angle 0` is pi/2, not 0 as claimed. -/
theorem direction_angle_zero_is_half_pi_not_zero :
    direction_angle 0 = Real.pi / 2 ∧ direction_angle 0 ≠ 0 := by
  refine ⟨direction_angle_zero_val, ?_⟩
  rw [direction_angle_zero_val]
  have := Real.pi_pos
  positivity

/-- C4 amended: `direction_angle 0 = pi/2` (the arrow points along the
vertical time axis) and `direction_angle v` tends to 0 as `v` tends to 1
from inside `(0, 1)` (the arrow points along the horizontal space axis):
the returned angle is measured from the horizontal space axis, so the
claimed values 0 and pi/2 are swapped. -/
theorem direction_angle_half_pi_at_zero_tendsto_zero :
    direction_angle 0 = Real.pi / 2 ∧
    Filter.Tendsto direction_angle (nhdsWithin 1 (Set.Ioo 0 1)) (nhds 0) := by
  refine ⟨direction_angle_zero_val, ?_⟩
  have hsq : ContinuousAt (fun v : ℝ => Real.sqrt (1 - v ^ 2)) 1 := by
    exact (Real.continuous_sqrt.comp (by continuity)).continuousAt
  have hdiv : ContinuousAt (fun v : ℝ => Real.sqrt (1 - v ^ 2) / v) 1 :=
    hsq.div continuous_id.continuousAt (by norm_num)
  have hc : ContinuousAt (fun v : ℝ => Real.arctan (Real.sqrt (1 - v ^ 2) / v)) 1 :=
    Real.continuous_arctan.continuousAt.comp hdiv
  have ht : Filter.Tendsto (fun v : ℝ => Real.arctan (Real.sqrt (1 - v ^ 2) / v))
      (nhds 1) (nhds 0) := by
    simpa [Real.sqrt_zero, Real.arctan_zero] using hc.tendsto
  refine Filter.Tendsto.congr' ?_ (ht.mono_left nhdsWithin_le_nhds)
  exact Filter.eventuallyEq_of_mem self_mem_nhdsWithin
    (fun v hv => (direction_angle_eq_arctan hv.1 hv.2).symm)

/-- C5: for every velocity v in `[0, 1)`, `spacetime_components v` is the
pair `(1 / gamma v, v)` and the two components lie on the unit circle. -/
theorem spacetime_components_spec (v : ℝ) (h0 : 0 ≤ v) (h1 : v < 1) :
    spacetime_components v = (1 / gamma v, v) ∧
    (spacetime_components v).1 ^ 2 + (spacetime_components v).2 ^ 2 = 1 := by
  refine ⟨rfl, ?_⟩
  show (1 / gamma v) ^ 2 + v ^ 2 = 1
  rw [one_div_gamma, Real.sq_sqrt (one_sub_sq_pos h0 h1).le]
  ring

/-- C5 witness: the theorem instantiated at v = 3/5. -/
theorem spacetime_components_spec_witness :
    spacetime_components (3/5) = (1 / gamma (3/5), 3/5) ∧
    (spacetime_components (3/5)).1 ^ 2 + (spacetime_components (3/5)).2 ^ 2 = 1 :=
  spacetime_components_spec (3/5) (by norm_num) (by norm_num)

/-- C7: for every angle, `create_arrow_coordinates angle 1 (1/10)` (the
Python defaults `length=1.0, head_size=0.1`) yields two lists of five
coordinates whose points are: the origin, the main tip at
`(cos angle, sin angle)` (listed again in third position before each
head segment), and two arrowhead points each at squared distance
`(1/10)^2` from the tip, hence equidistant from it; and at
`angle = pi/2` the tip is `(0, 1)`. -/
theorem create_arrow_coordinates_spec :
    (∀ a : ℝ,
      (create_arrow_coordinates a 1 (1/10)).1.length = 5 ∧
      (create_arrow_coordinates a 1 (1/10)).2.length = 5 ∧
      ((create_arrow_coordinates a 1 (1/10)).1.getD 0 0 = 0 ∧
       (create_arrow_coordinates a 1 (1/10)).2.getD 0 0 = 0) ∧
      ((create_arrow_coordinates a 1 (1/10)).1.getD 1 0 = Real.cos a ∧
       (create_arrow_coordinates a 1 (1/10)).2.getD 1 0 = Real.sin a) ∧
      ((create_arrow_coordinates a 1 (1/10)).1.getD 3 0 = Real.cos a ∧
       (create_arrow_coordinates a 1 (1/10)).2.getD 3 0 = Real.sin a) ∧
      ((create_arrow_coordinates a 1 (1/10)).1.getD 2 0 - Real.cos a) ^ 2 +
        ((create_arrow_coordinates a 1 (1/10)).2.getD 2 0 - Real.sin a) ^ 2 =
          (1/10) ^ 2 ∧
      ((create_arrow_coordinates a 1 (1/10)).1.getD 4 0 - Real.cos a) ^ 2 +
        ((create_arrow_coordinates a 1 (1/10)).2.getD 4 0 - Real.sin a) ^ 2 =
          (1/10) ^ 2) ∧
    ((create_arrow_coordinates (Real.pi/2) 1 (1/10)).1.getD 1 0 = 0 ∧
     (create_arrow_coordinates (Real.pi/2) 1 (1/10)).2.getD 1 0 = 1) := by
  have key : ∀ a : ℝ,
      (create_arrow_coordinates a 1 (1/10)).1.length = 5 ∧
      (create_arrow_coordinates a 1 (1/10)).2.length = 5 ∧
      ((create_arrow_coordinates a 1 (1/10)).1.getD 0 0 = 0 ∧
       (create_arrow_coordinates a 1 (1/10)).2.getD 0 0 = 0) ∧
      ((create_arrow_coordinates a 1 (1/10)).1.getD 1 0 = Real.cos a ∧
       (create_arrow_coordinates a 1 (1/10)).2.getD 1 0 = Real.sin a) ∧
      ((create_arrow_coordinates a 1 (1/10)).1.getD 3 0 = Real.cos a ∧
       (create_arrow_coordinates a 1 (1/10)).2.getD 3 0 = Real.sin a) ∧
      ((create_arrow_coordinates a 1 (1/10)).1.getD 2 0 - Real.cos a) ^ 2 +
        ((create_arrow_coordinates a 1 (1/10)).2.getD 2 0 - Real.sin a) ^ 2 =
          (1/10) ^ 2 ∧
      ((create_arrow_coordinates a 1 (1/10)).1.getD 4 0 - Real.cos a) ^ 2 +
        ((create_arrow_coordinates a 1 (1/10)).2.getD 4 0 - Real.sin a) ^ 2 =
          (1/10) ^ 2 := by
    intro a
    simp only [create_arrow_coordinates, List.length_cons, List.length_nil,
      List.getD_cons_zero, List.getD_cons_succ]
    refine ⟨trivial, trivial, ⟨trivial, trivial⟩, ⟨by ring, by ring⟩,
      ⟨by ring, by ring⟩, ?_, ?_⟩
    · linear_combination ((1:ℝ)/100) *
        Real.sin_sq_add_cos_sq (a + Real.pi - 20 * Real.pi / 180)
    · linear_combination ((1:ℝ)/100) *
        Real.sin_sq_add_cos_sq (a + Real.pi + 20 * Real.pi / 180)
  refine ⟨key, ?_, ?_⟩
  · have h := (key (Real.pi/2)).2.2.2.1.1
    rw [h, Real.cos_pi_div_two]
  · have h := (key (Real.pi/2)).2.2.2.1.2
    rw [h, Real.sin_pi_div_two]

/-- C8: the pound/kilogram conversions multiply by exactly 0.45359237
and 2.20462, whose product is not 1; composing them multiplies by both
factors, which differs from the identity on every nonzero input. -/
theorem mass_conversion_spec :
    (∀ x : ℝ, mass_lbs_to_kg x = x * 0.45359237) ∧
    (∀ x : ℝ, mass_kg_to_lbs x = x * 2.20462) ∧
    ((0.45359237 : ℝ) * 2.20462 ≠ 1) ∧
    (∀ x : ℝ, mass_kg_to_lbs (mass_lbs_to_kg x) = x * 0.45359237 * 2.20462) ∧
    (∀ x : ℝ, x ≠ 0 → mass_kg_to_lbs (mass_lbs_to_kg x) ≠ x) := by
  refine ⟨fun x => rfl, fun x => rfl, by norm_num, fun x => rfl, ?_⟩
  intro x hx h
  rw [mass_kg_to_lbs, mass_lbs_to_kg] at h
  have h3 : x * ((0.45359237 : ℝ) * 2.20462 - 1) = 0 := by linear_combination h
  rcases mul_eq_zero.mp h3 with h4 | h4
  · exact hx h4
  · norm_num at h4

/-- C8 witness: the theorem instantiated at 1 lb. -/
theorem mass_conversion_spec_witness :
    mass_kg_to_lbs (mass_lbs_to_kg 1) ≠ 1 ∧ mass_lbs_to_kg 1 = 1 * 0.45359237 :=
  ⟨mass_conversion_spec.2.2.2.2 1 (by norm_num), mass_conversion_spec.1 1⟩

/-- C9: for every velocity v in `[0, 1)`, the factor `sqrt (1 - v^2)`
computed independently by `TimeDilationClocks.set_velocity` equals
`RelativisticCalculator.time_dilation v`, so the clock animation's
dilated elapsed time `elapsed_time * factor` is the quantity
`elapsed_time * time_dilation v`. -/
theorem clock_factor_matches_time_dilation (v : ℝ) (h0 : 0 ≤ v) (h1 : v < 1) :
    TimeDilationClocks.set_velocity_factor v = time_dilation v ∧
    ∀ e : ℝ, TimeDilationClocks.dilated_time e v = e * time_dilation v := by
  have hf : TimeDilationClocks.set_velocity_factor v = time_dilation v := by
    rw [TimeDilationClocks.set_velocity_factor, time_dilation, one_div_gamma]
  exact ⟨hf, fun e => by rw [TimeDilationClocks.dilated_time, hf]⟩

/-- C9 witness: the theorem instantiated at v = 3/5 and elapsed time 2. -/
theorem clock_factor_matches_time_dilation_witness :
    TimeDilationClocks.set_velocity_factor (3/5) = time_dilation (3/5) ∧
    TimeDilationClocks.dilated_time 2 (3/5) = 2 * time_dilation (3/5) :=
  ⟨(clock_factor_matches_time_dilation (3/5) (by norm_num) (by norm_num)).1,
   (clock_factor_matches_time_dilation (3/5) (by norm_num) (by norm_num)).2 2⟩

/-- C10: when the mass-input text does not parse as a float,
`get_mass_kg` returns the default 1 kg rather than signalling an error,
and a plot update triggered at any slider value then computes the
energies with rest mass 1 kg. -/
theorem get_mass_kg_default_on_invalid :
    SpaceTimeVisualizer.get_mass_kg none = 1 ∧
    ∀ s : ℕ, SpaceTimeVisualizer.update_plots_energies s none =
      energy_calculations 1 ((s : ℝ) / 1000) :=
  ⟨rfl, fun s => rfl⟩
